import Mathlib

/-!
Shallow embedding of the ESMValTool installation script (setup.py).

The script has three visible pieces:
  * a custom build subcommand `RunTests` that invokes the external test
    engine (pytest) on a fixed argument list and exits the process with the
    status code the engine returned;
  * the dependency manifests and the package descriptor passed to `setup`;
  * the top level, which opens README.md and passes its contents as the
    description, so a missing file aborts before `setup` runs.

Pure configuration values become Lean constants; the method `run` becomes a
function from the (abstract) test-engine behaviour to the process outcome;
the top level becomes a function from an abstract read-only filesystem to
either an error or the descriptor `setup` receives.
-/

/-- Whether `p` is an initial segment of `s`, computed structurally on the
character lists (the model of a starts-with test used below). -/
def strStartsWith (s p : String) : Bool := p.data.isPrefixOf s.data

/-- The string `s` without its first `n` characters, computed structurally on
the character list (the model of string slicing used below). -/
def strDrop (s : String) (n : Nat) : String := String.mk (s.data.drop n)

/-- Splits `l` at the first occurrence of the separator `sep`: the part
before it and the part after it, or `none` when `sep` does not occur. -/
def splitFirst (sep : List Char) : List Char → Option (List Char × List Char)
  | [] => none
  | c :: cs =>
    if sep.isPrefixOf (c :: cs) then some ([], (c :: cs).drop sep.length)
    else
      match splitFirst sep cs with
      | none => none
      | some (pre, post) => some (c :: pre, post)

/-- The list of included sub-packages (`PACKAGES`, lines 14-16 of setup.py). -/
def PACKAGES : List String := ["esmvaltool"]

namespace RunTests

/-- The declared options table of the `test` subcommand: a distutils
`user_options` entry is a (long name, short name, help) triple, and the class
declares none (`user_options = []`, line 21). -/
def user_options : List (String × Option String × String) := []

/-- The attribute state of a command object, modelled as its attribute
dictionary (Python object state is a name-to-value map). -/
structure CommandState where
  attrs : List (String × String)
deriving DecidableEq

/-- `initialize_options` (lines 23-24): its body is only a docstring, so it
changes nothing about the command object. -/
def initialize_options (self : CommandState) : CommandState := self

/-- `finalize_options` (lines 26-27): its body is only a docstring, so it
changes nothing about the command object. -/
def finalize_options (self : CommandState) : CommandState := self

/-- The local report directory value bound in `run` (line 33). -/
def report_dir : String := "test-reports"

/-- The argument list handed to `pytest.main` (lines 34-40): the test root
path, the coverage target, and three report options whose paths are built
from `report_dir` by string interpolation (`.format(report_dir)`). -/
def pytestArgs : List String :=
  [ "tests",
    "--cov=esmvaltool",
    "--cov-report=html:" ++ report_dir ++ "/coverage_html",
    "--cov-report=xml:" ++ report_dir ++ "/coverage.xml",
    "--junit-xml=" ++ report_dir ++ "/report.xml" ]

/-- The observable result of one test-engine invocation: the numeric status
code `pytest.main` returns and the report artifact paths it wrote. -/
structure EngineResult where
  status : Int
  reportsWritten : List String
deriving DecidableEq

/-- What `run` can do to its caller: `sys.exit(errno)` terminates the host
process with a code, so the only alternative outcome, returning control to
the caller, is represented by a second constructor that `run` never uses. -/
inductive RunOutcome where
  | exited (code : Int)
  | returned
deriving DecidableEq

/-- `RunTests.run` (lines 29-42): invoke the test engine on `pytestArgs`,
then `sys.exit(errno)` where `errno` is the status the engine returned. The
engine is abstract (it is an external library); the second component records
the report artifacts the engine wrote to the filesystem. -/
def run (pytestMain : List String → EngineResult) : RunOutcome × List String :=
  let r := pytestMain pytestArgs
  (RunOutcome.exited r.status, r.reportsWritten)

/-- The kind of a report sink requested on the pytest command line. -/
inductive SinkKind where
  | htmlCov
  | xmlCov
  | junitXml
deriving DecidableEq

/-- The report sinks an argument list requests, read off the pytest option
syntax: an HTML coverage directory after `--cov-report=html:`, an XML
coverage path after `--cov-report=xml:`, a JUnit-style result path after
`--junit-xml=`. Every other argument requests no report sink. -/
def reportSinks (args : List String) : List (SinkKind × String) :=
  args.filterMap (fun a =>
    if strStartsWith a "--cov-report=html:" then
      some (SinkKind.htmlCov, strDrop a 18)
    else if strStartsWith a "--cov-report=xml:" then
      some (SinkKind.xmlCov, strDrop a 17)
    else if strStartsWith a "--junit-xml=" then
      some (SinkKind.junitXml, strDrop a 12)
    else none)

/-- Modelled from the spec: the external test engine (pytest) is not part of
this repository, only its invocation is. Per the spec, if the test root path
(the first positional argument) is absent from the filesystem, "the
underlying test engine reports a non-zero status" (pytest uses 4, its usage
error code) and produces no valid report artifacts; otherwise its status is
some suite-dependent code and it writes the requested report sinks. -/
def pytestMainSpec (dirExists : String → Bool) (suiteStatus : Int)
    (args : List String) : EngineResult :=
  if dirExists (args.headD "") then
    { status := suiteStatus, reportsWritten := (reportSinks args).map Prod.snd }
  else
    { status := 4, reportsWritten := [] }

end RunTests

/-- The runtime dependency manifest (`install_requires`, lines 57-70). -/
def install_requires : List String :=
  [ "cdo",
    "cf_units",
    "coverage",
    "cython",
    "esgf-pyclient",
    "numpy",
    "netCDF4",
    "matplotlib",
    "pyyaml",
    "pytest",
    "pytest-cov",
    "shapely" ]

/-- The test-only dependency manifest (`tests_require`, lines 71-77). -/
def tests_require : List String :=
  [ "easytest",
    "mock",
    "nose",
    "pytest",
    "pytest-cov" ]

/-- The build-time dependency manifest (`setup_requires`, lines 54-56). -/
def setup_requires : List String := ["setuptools_scm"]

/-- The console-script declarations (lines 79-81). -/
def console_scripts : List String := ["esmvaltool = esmvaltool.main:run"]

/-- The entry-point table passed to `setup` (lines 78-82): group name to the
list of declarations in that group. -/
def entry_points : List (String × List String) :=
  [("console_scripts", console_scripts)]

/-- How a build tool processes one console-script declaration: the text
before the separator is the installed command name, the text after it the
fully qualified function reference the shim dispatches to. -/
def parseEntryPoint (decl : String) : Option (String × String) :=
  match splitFirst " = ".data decl.data with
  | some (n, t) => some (String.mk n, String.mk t)
  | none => none

/-- The commands a build tool installs from an entry-point table: every
well-formed declaration in the `console_scripts` group, as (installed command
name, function reference) pairs. -/
def installedCommands (eps : List (String × List String)) :
    List (String × String) :=
  (eps.filter (fun kv => kv.1 == "console_scripts")).flatMap
    (fun kv => kv.2.filterMap parseEntryPoint)

/-- The package a fully qualified function reference lives in: the module
path component before the first dot. -/
def targetPackage (target : String) : String :=
  String.mk (target.data.takeWhile (fun c => c != '.'))

/-- The keyword arguments of the `setup(...)` call (lines 46-85). The
`cmdclass` value is the registered command class, recorded by its name. -/
structure SetupDescriptor where
  name : String
  version : Option String
  description : String
  packages : List String
  include_package_data : Bool
  use_scm_version : Bool
  setup_requires : List String
  install_requires : List String
  tests_require : List String
  entry_points : List (String × List String)
  cmdclass : List (String × String)
deriving DecidableEq

/-- The `setup(...)` call with the readme contents in hand (lines 46-85):
every field is the literal argument from the script, with `description` set
to what was read from README.md (line 49). -/
def setupCall (readme : String) : SetupDescriptor :=
  { name := "ESMValTool"
    version := some "2.0.0"
    description := readme
    packages := PACKAGES
    include_package_data := true
    use_scm_version := true
    setup_requires := setup_requires
    install_requires := install_requires
    tests_require := tests_require
    entry_points := entry_points
    cmdclass := [("test", "RunTests")] }

/-- What can abort the top level of the script before `setup` runs. -/
inductive ScriptError where
  | fileNotFound (name : String)
deriving DecidableEq

/-- The top level of the script (lines 45-85): `open` on README.md raises if
the file is absent, aborting before `setup` is ever called; otherwise `setup`
receives the descriptor with the file contents as description. The filesystem
is abstract: a map from file names to contents. -/
def script (fs : String → Option String) : Except ScriptError SetupDescriptor :=
  match fs "README.md" with
  | none => Except.error (ScriptError.fileNotFound "README.md")
  | some readme => Except.ok (setupCall readme)

/-- C1: every invocation of the test subcommand's run operation terminates
the host process — the outcome is an exit, never a return of control to the
caller — and the exit code is exactly the numeric status the test engine
returned for the fixed argument list, with no translation or remapping. -/
theorem run_exits_with_engine_status
    (pytestMain : List String → RunTests.EngineResult) :
    (RunTests.run pytestMain).1 =
      RunTests.RunOutcome.exited (pytestMain RunTests.pytestArgs).status := rfl

/-- C2: the argument list the test subcommand always passes to the engine
requests exactly three report sinks — the HTML coverage directory, the XML
coverage report and the JUnit-style result report, at the three fixed
paths — and no others. -/
theorem run_requests_exactly_three_report_sinks :
    RunTests.reportSinks RunTests.pytestArgs =
      [ (RunTests.SinkKind.htmlCov, "test-reports/coverage_html"),
        (RunTests.SinkKind.xmlCov, "test-reports/coverage.xml"),
        (RunTests.SinkKind.junitXml, "test-reports/report.xml") ] := by decide

/-- C3: the descriptor declares exactly one console entry point, named
esmvaltool; processing the table yields exactly one installed command, whose
key matches the declaration and whose target reference lives in the external
esmvaltool package. -/
theorem exactly_one_console_entry_point (readme : String) :
    (setupCall readme).entry_points =
      [("console_scripts", ["esmvaltool = esmvaltool.main:run"])] ∧
    installedCommands (setupCall readme).entry_points =
      [("esmvaltool", "esmvaltool.main:run")] ∧
    (installedCommands (setupCall readme).entry_points).map
      (fun c => targetPackage c.2) = ["esmvaltool"] := by
  refine ⟨rfl, ?_, ?_⟩
  · show installedCommands entry_points = _
    decide
  · show (installedCommands entry_points).map (fun c => targetPackage c.2) = _
    decide

/-- C4: the declared runtime dependency list is exactly the twelve names of
the claim, and the declared test-only dependency list exactly its five
names. -/
theorem dependency_manifests_exact (readme : String) :
    (setupCall readme).install_requires =
      [ "cdo", "cf_units", "coverage", "cython", "esgf-pyclient", "numpy",
        "netCDF4", "matplotlib", "pyyaml", "pytest", "pytest-cov",
        "shapely" ] ∧
    (setupCall readme).tests_require =
      [ "easytest", "mock", "nose", "pytest", "pytest-cov" ] := ⟨rfl, rfl⟩

/-- C5 counterexample: the claim says the version is not a literal fixed in
the script, but the descriptor fixes the literal version string 2.0.0 (line
48 of setup.py), so its version field is that literal, not absent. -/
theorem version_literal_in_script :
    (setupCall "").version = some "2.0.0" ∧ (setupCall "").version ≠ none :=
  by decide

/-- C5 amended: the descriptor requests an externally derived version — the
SCM-version flag is set and setuptools_scm is a build requirement, which
overrides the version keyword — but the script also fixes the literal
version 2.0.0 in the same call. -/
theorem version_scm_requested_despite_literal (readme : String) :
    (setupCall readme).use_scm_version = true ∧
    "setuptools_scm" ∈ (setupCall readme).setup_requires ∧
    (setupCall readme).version = some "2.0.0" :=
  ⟨rfl, List.Mem.head _, rfl⟩

/-- C6: both dependency manifests are non-empty, neither has a duplicate
within itself, and the two overlap in exactly pytest and pytest-cov. -/
theorem manifests_nonempty_nodup_overlap :
    install_requires ≠ [] ∧ tests_require ≠ [] ∧
    install_requires.Nodup ∧ tests_require.Nodup ∧
    install_requires.inter tests_require = ["pytest", "pytest-cov"] :=
  by decide

/-- C7: when the tests directory does not exist, the run operation exits the
process with a non-zero status (the engine's usage-error code 4) and no
report artifact was written, rather than silently succeeding. The engine is
the spec-modelled pytest behaviour `pytestMainSpec`. -/
theorem missing_tests_dir_nonzero_exit (dirExists : String → Bool)
    (suiteStatus : Int) (h : dirExists "tests" = false) :
    (RunTests.run (RunTests.pytestMainSpec dirExists suiteStatus)).1 =
        RunTests.RunOutcome.exited 4 ∧
    (4 : Int) ≠ 0 ∧
    (RunTests.run (RunTests.pytestMainSpec dirExists suiteStatus)).2 = [] := by
  have h2 : RunTests.pytestMainSpec dirExists suiteStatus RunTests.pytestArgs =
      { status := 4, reportsWritten := [] } := by
    simp [RunTests.pytestMainSpec, RunTests.pytestArgs, h]
  refine ⟨?_, by decide, ?_⟩
  · show RunTests.RunOutcome.exited
        (RunTests.pytestMainSpec dirExists suiteStatus RunTests.pytestArgs).status
      = _
    rw [h2]
  · show (RunTests.pytestMainSpec dirExists suiteStatus
        RunTests.pytestArgs).reportsWritten = _
    rw [h2]

/-- C7 witness: on a filesystem with no directories at all, the tests
directory is absent and the run outcome is exit code 4 with no reports. -/
theorem missing_tests_dir_nonzero_exit_witness :
    (RunTests.run (RunTests.pytestMainSpec (fun _ => false) 0)).1 =
        RunTests.RunOutcome.exited 4 ∧
    (4 : Int) ≠ 0 ∧
    (RunTests.run (RunTests.pytestMainSpec (fun _ => false) 0)).2 = [] :=
  missing_tests_dir_nonzero_exit (fun _ => false) 0 rfl

/-- C8: the three requested report artifact paths are built from the single
report directory value by string interpolation, so each of them starts with
that directory followed by a path separator. -/
theorem report_paths_from_single_report_dir :
    RunTests.report_dir = "test-reports" ∧
    (RunTests.reportSinks RunTests.pytestArgs).map Prod.snd =
      [ RunTests.report_dir ++ "/coverage_html",
        RunTests.report_dir ++ "/coverage.xml",
        RunTests.report_dir ++ "/report.xml" ] ∧
    ((RunTests.reportSinks RunTests.pytestArgs).map Prod.snd).all
      (fun p => strStartsWith p (RunTests.report_dir ++ "/")) = true :=
  by decide

/-- C9: the test subcommand recognizes zero options, and both lifecycle
hooks leave the command object's state completely unchanged. -/
theorem test_subcommand_zero_options_noop_hooks :
    RunTests.user_options = [] ∧
    ∀ s : RunTests.CommandState,
      RunTests.initialize_options s = s ∧ RunTests.finalize_options s = s :=
  ⟨rfl, fun _ => ⟨rfl, rfl⟩⟩

/-- C10: when README.md exists, setup receives the descriptor whose
description is the entire file contents; when it is absent, the script
aborts with a file-not-found error before setup is called, so no descriptor
(hence no metadata, command or subcommand) is produced. -/
theorem description_from_readme_or_abort (fs : String → Option String) :
    (∀ contents, fs "README.md" = some contents →
      script fs = Except.ok (setupCall contents) ∧
      (setupCall contents).description = contents) ∧
    (fs "README.md" = none →
      script fs = Except.error (ScriptError.fileNotFound "README.md")) := by
  constructor
  · intro contents hc
    exact ⟨by simp [script, hc], rfl⟩
  · intro hn
    simp [script, hn]
